import Mathlib

/-!
Shallow embedding of the `pgsqlasync2fast_fastapi` package
(`settings.py`, `connection.py`, `database.py`), with theorems checking the
specification's claims about the connection registry and the administrative
database operations.

Modelling conventions:
  * Python dicts are insertion-ordered association lists `List (String × β)`;
    lookup takes the first matching key (dict keys are unique, so this agrees
    with dict semantics).
  * A Python `Optional[str]` argument is `Option String`; the idiom
    `connection_name or self.config.default_connection` is `pyOr`, which also
    sends the falsy empty string to the default.
  * A SQLAlchemy `AsyncEngine` is an `Engine`: a fresh identity (`id`,
    incremented on each `create_async_engine` call, so reference equality is
    `id` equality) together with the keyword arguments the code passed to
    `create_async_engine`.
  * Exceptions are `Except DbError`; the distinct `ValueError` messages of the
    source map to distinct `DbError` constructors.
  * The outside world (whether a connection's round trip succeeds, whether an
    engine's `dispose` raises) is a `World` record; the server's catalog of
    databases is a `ServerState` (name, is_template pairs).
-/

set_option autoImplicit false

deriving instance DecidableEq for Except

/-- Error taxonomy: each constructor corresponds to one distinct `ValueError`
message (or propagated driver error) in the source. -/
inductive DbError where
  /-- `settings.get_connection`: "Database connection '<name>' not found." -/
  | unknownConnection (name : String)
  /-- admin ops: "No superuser connection available." -/
  | noSuperuserConnection
  /-- admin ops: "Connection '<name>' does not have superuser privileges." -/
  | notSuperuser (name : String)
  /-- `drop_database`: "Cannot drop protected database '<name>'." -/
  | protectedDatabase (name : String)
  /-- a network/driver failure surfaced from `engine.connect()`/`execute`. -/
  | connectivityFailure
  /-- a failure raised by `engine.dispose()` during `close_all`. -/
  | disposalFailure
  /-- a `KeyError` on a dict access the source performs without a guard. -/
  | keyError (name : String)
deriving DecidableEq

/-- First-match lookup in an insertion-ordered dict. -/
def dictGet {β : Type} : List (String × β) → String → Option β
  | [], _ => none
  | p :: l, k => if p.1 == k then some p.2 else dictGet l k

/-- `connection_name or self.config.default_connection`: Python `or` takes the
default when the argument is `None` or the falsy empty string. -/
def pyOr (cn : Option String) (d : String) : String :=
  match cn with
  | none => d
  | some s => if s = "" then d else s

/-- `settings.DatabaseConnectionSettings`: configuration of one named
connection (pydantic model; `password` is the secret's cleartext value). -/
structure DatabaseConnectionSettings where
  host : String
  port : Nat
  username : String
  password : String
  database : String
  is_superuser : Bool
  pool_size : Nat
  max_overflow : Nat
  pool_timeout : Nat
  pool_recycle : Nat
  echo : Bool
deriving DecidableEq

/-- Pydantic's handling of the `echo` field on the configuration surface:
`none` means the field was absent and the declared default `False` applies,
`some b` means it was explicitly provided as `b`. The stored model keeps only
the resulting `Bool`; whether it was explicitly set is not retained. -/
def appliedEcho (echoInput : Option Bool) : Bool :=
  echoInput.getD false

/-- `settings.DatabaseSettings`: named connections plus global settings. -/
structure DatabaseSettings where
  connections : List (String × DatabaseConnectionSettings)
  default_connection : String
  echo : Bool
deriving DecidableEq

namespace DatabaseSettings

/-- `DatabaseSettings.get_connection`. -/
def get_connection (cfg : DatabaseSettings) (connection_name : Option String) :
    Except DbError DatabaseConnectionSettings :=
  let name := pyOr connection_name cfg.default_connection
  match dictGet cfg.connections name with
  | some c => .ok c
  | none => .error (.unknownConnection name)

/-- `DatabaseSettings.has_connection`. -/
def has_connection (cfg : DatabaseSettings) (connection_name : String) : Bool :=
  (dictGet cfg.connections connection_name).isSome

/-- `DatabaseSettings.get_connection_url`: the derived async PostgreSQL URL. -/
def get_connection_url (cfg : DatabaseSettings) (connection_name : Option String) :
    Except DbError String :=
  (cfg.get_connection connection_name).map (fun conn =>
    "postgresql+asyncpg://" ++ conn.username ++ ":" ++ conn.password ++
      "@" ++ conn.host ++ ":" ++ toString conn.port ++ "/" ++ conn.database)

/-- `DatabaseSettings.get_superuser_connection_name`: name of the first
connection (configuration iteration order) with `is_superuser=True`. -/
def get_superuser_connection_name (cfg : DatabaseSettings) : Option String :=
  (cfg.connections.find? (fun p => p.2.is_superuser)).map (·.1)

end DatabaseSettings

/-- The keyword arguments `DatabaseManager.get_engine` passes to
`create_async_engine`. -/
structure EngineParams where
  url : String
  echo : Bool
  pool_size : Nat
  max_overflow : Nat
  pool_timeout : Nat
  pool_recycle : Nat
  pool_pre_ping : Bool
deriving DecidableEq

/-- A constructed `AsyncEngine`: `id` is its identity (fresh per
`create_async_engine` call), `params` what it was built from. -/
structure Engine where
  id : Nat
  params : EngineParams
deriving DecidableEq

/-- Mutable state of a `DatabaseManager`: the `_engines` and `_session_makers`
dicts, plus a counter of `create_async_engine` calls that doubles as the next
fresh engine identity. A session maker is identified by the id of the engine
it wraps. -/
structure ManagerState where
  engines : List (String × Engine)
  session_makers : List (String × Nat)
  nextEngineId : Nat
deriving DecidableEq

/-- The fresh manager state (`DatabaseManager.__init__`). -/
def ManagerState.init : ManagerState :=
  { engines := [], session_makers := [], nextEngineId := 0 }

/-- Environment behaviour outside the process: whether a round-trip
(`engine.connect()` + `execute`) on a given connection name succeeds, and
whether disposing a given engine raises. -/
structure World where
  connectOk : String → Bool
  disposeFails : Nat → Bool

namespace DatabaseManager

/-- `DatabaseManager.get_engine`: return the cached engine for the resolved
name, or construct one from the matching connection settings and cache it
together with a session maker. -/
def get_engine (cfg : DatabaseSettings) (connection_name : Option String)
    (st : ManagerState) : Except DbError Engine × ManagerState :=
  let name := pyOr connection_name cfg.default_connection
  match dictGet st.engines name with
  | some e => (.ok e, st)
  | none =>
    match dictGet cfg.connections name with
    | none => (.error (.unknownConnection name), st)
    | some conn =>
      let url := "postgresql+asyncpg://" ++ conn.username ++ ":" ++ conn.password ++
        "@" ++ conn.host ++ ":" ++ toString conn.port ++ "/" ++ conn.database
      let echo := if conn.echo then conn.echo else cfg.echo
      let engine : Engine :=
        { id := st.nextEngineId
          params :=
            { url := url
              echo := echo
              pool_size := conn.pool_size
              max_overflow := conn.max_overflow
              pool_timeout := conn.pool_timeout
              pool_recycle := conn.pool_recycle
              pool_pre_ping := true } }
      (.ok engine,
        { engines := (name, engine) :: st.engines
          session_makers := (name, engine.id) :: st.session_makers
          nextEngineId := st.nextEngineId + 1 })

/-- `DatabaseManager.get_session_maker`: ensure the engine (and with it the
session maker) exists, then return the session maker; the final unguarded dict
access is a `KeyError` if it is still missing. -/
def get_session_maker (cfg : DatabaseSettings) (connection_name : Option String)
    (st : ManagerState) : Except DbError Nat × ManagerState :=
  let name := pyOr connection_name cfg.default_connection
  match dictGet st.session_makers name with
  | some sm => (.ok sm, st)
  | none =>
    match get_engine cfg (some name) st with
    | (.error e, st') => (.error e, st')
    | (.ok _, st') =>
      match dictGet st'.session_makers name with
      | some sm => (.ok sm, st')
      | none => (.error (.keyError name), st')

/-- `DatabaseManager.get_session`: invoke the session maker; the produced
session is identified by its session maker's engine id. -/
def get_session (cfg : DatabaseSettings) (connection_name : Option String)
    (st : ManagerState) : Except DbError Nat × ManagerState :=
  get_session_maker cfg connection_name st

/-- The disposal loop of `close_all`: dispose each cached engine in dict
order; a raising `dispose` propagates immediately. -/
def disposeLoop (w : World) : List (String × Engine) → Except DbError Unit
  | [] => .ok ()
  | (_, e) :: rest =>
    if w.disposeFails e.id then .error .disposalFailure else disposeLoop w rest

/-- `DatabaseManager.close_all`: dispose every engine, then clear both caches.
If a disposal raises, the exception propagates before the `clear` calls run,
so both dicts are left as they were. -/
def close_all (w : World) (st : ManagerState) : Except DbError Unit × ManagerState :=
  match disposeLoop w st.engines with
  | .error e => (.error e, st)
  | .ok () =>
    (.ok (), { engines := [], session_makers := [], nextEngineId := st.nextEngineId })

/-- `DatabaseManager.health_check`: resolve/create the engine and run
`SELECT 1`; any exception is caught and converted to `False`. -/
def health_check (cfg : DatabaseSettings) (w : World) (connection_name : Option String)
    (st : ManagerState) : Bool × ManagerState :=
  match get_engine cfg connection_name st with
  | (.error _, st') => (false, st')
  | (.ok _, st') =>
    if w.connectOk (pyOr connection_name cfg.default_connection) then (true, st')
    else (false, st')

/-- `DatabaseManager.list_connections`. -/
def list_connections (cfg : DatabaseSettings) : List String :=
  cfg.connections.map (·.1)

/-- `DatabaseManager.is_superuser_connection`. -/
def is_superuser_connection (cfg : DatabaseSettings) (connection_name : Option String) :
    Except DbError Bool :=
  (cfg.get_connection connection_name).map (·.is_superuser)

end DatabaseManager

/-! ## Administrative operations (`database.py`) -/

/-- The server's catalog (`pg_database`): database name and `datistemplate`. -/
structure ServerState where
  dbs : List (String × Bool)
deriving DecidableEq

/-- `SELECT 1 FROM pg_database WHERE datname = :dbname` has a row. -/
def ServerState.hasDb (srv : ServerState) (name : String) : Bool :=
  (srv.dbs.find? (fun p => p.1 == name)).isSome

/-- The superuser-resolution block repeated verbatim at the top of
`database_exists`, `create_database`, `drop_database` and `list_databases`:
default to the first superuser connection when no name is given (raising when
there is none), then require `manager.is_superuser_connection` on the chosen
name (which itself raises `unknownConnection` for an unconfigured name). -/
def superuserCheck (cfg : DatabaseSettings) (connection_name : Option String) :
    Except DbError String :=
  let resolved : Except DbError String :=
    match connection_name with
    | none =>
      match cfg.get_superuser_connection_name with
      | none => .error .noSuperuserConnection
      | some n => .ok n
    | some n => .ok n
  match resolved with
  | .error e => .error e
  | .ok n =>
    match DatabaseManager.is_superuser_connection cfg (some n) with
    | .error e => .error e
    | .ok true => .ok n
    | .ok false => .error (.notSuperuser n)

/-- `database.database_exists`: resolve a superuser connection, get (possibly
creating) its engine, open an autocommit connection and query the catalog. -/
def database_exists (cfg : DatabaseSettings) (w : World) (srv : ServerState)
    (database_name : String) (connection_name : Option String) (st : ManagerState) :
    Except DbError Bool × ManagerState :=
  match superuserCheck cfg connection_name with
  | .error e => (.error e, st)
  | .ok n =>
    match DatabaseManager.get_engine cfg (some n) st with
    | (.error e, st') => (.error e, st')
    | (.ok _, st') =>
      if w.connectOk n then (.ok (srv.hasDb database_name), st')
      else (.error .connectivityFailure, st')

/-- `database.create_database`: after the superuser check, a no-op returning
`False` when the database already exists, otherwise `CREATE DATABASE` in
autocommit mode (optionally with an owner) returning `True`. -/
def create_database (cfg : DatabaseSettings) (w : World) (srv : ServerState)
    (database_name : String) (owner : Option String) (connection_name : Option String)
    (st : ManagerState) : Except DbError Bool × ManagerState × ServerState :=
  match superuserCheck cfg connection_name with
  | .error e => (.error e, st, srv)
  | .ok n =>
    match database_exists cfg w srv database_name (some n) st with
    | (.error e, st') => (.error e, st', srv)
    | (.ok true, st') => (.ok false, st', srv)
    | (.ok false, st') =>
      match DatabaseManager.get_engine cfg (some n) st' with
      | (.error e, st'') => (.error e, st'', srv)
      | (.ok _, st'') =>
        if w.connectOk n then
          let _ := owner
          (.ok true, st'', { dbs := srv.dbs ++ [(database_name, false)] })
        else (.error .connectivityFailure, st'', srv)

/-- The fixed denylist in `drop_database`. -/
def protected_databases : List String := ["postgres", "template0", "template1"]

/-- `database.drop_database`: the protected-name check comes first, before the
manager, connection resolution or any network activity; a missing database
returns `False`; otherwise (after `force` optionally terminates backends)
`DROP DATABASE` in autocommit mode returns `True`. -/
def drop_database (cfg : DatabaseSettings) (w : World) (srv : ServerState)
    (database_name : String) (connection_name : Option String) (force : Bool)
    (st : ManagerState) : Except DbError Bool × ManagerState × ServerState :=
  if database_name ∈ protected_databases then
    (.error (.protectedDatabase database_name), st, srv)
  else
    match superuserCheck cfg connection_name with
    | .error e => (.error e, st, srv)
    | .ok n =>
      match database_exists cfg w srv database_name (some n) st with
      | (.error e, st') => (.error e, st', srv)
      | (.ok false, st') => (.ok false, st', srv)
      | (.ok true, st') =>
        match DatabaseManager.get_engine cfg (some n) st' with
        | (.error e, st'') => (.error e, st'', srv)
        | (.ok _, st'') =>
          if w.connectOk n then
            let _ := force
            (.ok true, st'', { dbs := srv.dbs.filter (fun p => ¬(p.1 == database_name)) })
          else (.error .connectivityFailure, st'', srv)

/-- Insertion step for ascending sort by `<` on strings. -/
def insertAsc (s : String) : List String → List String
  | [] => [s]
  | t :: ts => if t < s then t :: insertAsc s ts else s :: t :: ts

/-- `ORDER BY datname` ascending. -/
def sortAsc (l : List String) : List String :=
  l.foldr insertAsc []

/-- `database.list_databases`: names of all non-template databases, sorted
ascending. -/
def list_databases (cfg : DatabaseSettings) (w : World) (srv : ServerState)
    (connection_name : Option String) (st : ManagerState) :
    Except DbError (List String) × ManagerState :=
  match superuserCheck cfg connection_name with
  | .error e => (.error e, st)
  | .ok n =>
    match DatabaseManager.get_engine cfg (some n) st with
    | (.error e, st') => (.error e, st')
    | (.ok _, st') =>
      if w.connectOk n then
        (.ok (sortAsc ((srv.dbs.filter (fun p => p.2 == false)).map (·.1))), st')
      else (.error .connectivityFailure, st')

/-! ## Registry operation sequences (for the cache invariant) -/

/-- One registry operation, for stating invariants over arbitrary sequences. -/
inductive RegistryOp where
  | getEngine (cn : Option String)
  | getSessionMaker (cn : Option String)
  | getSession (cn : Option String)
  | closeAll
  | healthCheck (cn : Option String)
deriving DecidableEq

/-- The state transition of one registry operation. -/
def runOp (cfg : DatabaseSettings) (w : World) (st : ManagerState) :
    RegistryOp → ManagerState
  | .getEngine cn => (DatabaseManager.get_engine cfg cn st).2
  | .getSessionMaker cn => (DatabaseManager.get_session_maker cfg cn st).2
  | .getSession cn => (DatabaseManager.get_session cfg cn st).2
  | .closeAll => (DatabaseManager.close_all w st).2
  | .healthCheck cn => (DatabaseManager.health_check cfg w cn st).2

/-- The state after a sequence of registry operations. -/
def runOps (cfg : DatabaseSettings) (w : World) (ops : List RegistryOp)
    (st : ManagerState) : ManagerState :=
  ops.foldl (runOp cfg w) st

/-- The registry cache invariant: the engine dict and the session-maker dict
hold exactly the same keys in the same order, and every key is a configured
connection name. -/
def cacheInvariant (cfg : DatabaseSettings) (st : ManagerState) : Prop :=
  st.engines.map Prod.fst = st.session_makers.map Prod.fst ∧
  ∀ p ∈ st.engines, (dictGet cfg.connections p.1).isSome = true

instance (cfg : DatabaseSettings) (st : ManagerState) : Decidable (cacheInvariant cfg st) := by
  unfold cacheInvariant
  infer_instance

/-! ## Concrete configurations used by the witnesses -/

/-- An ordinary (non-superuser) connection configuration. -/
def connDefault : DatabaseConnectionSettings :=
  { host := "localhost", port := 5432, username := "app", password := "pw"
    database := "appdb", is_superuser := false, pool_size := 5, max_overflow := 10
    pool_timeout := 30, pool_recycle := 3600, echo := false }

/-- A superuser connection configuration. -/
def connAdmin : DatabaseConnectionSettings :=
  { host := "localhost", port := 5432, username := "postgres", password := "pw"
    database := "postgres", is_superuser := true, pool_size := 5, max_overflow := 10
    pool_timeout := 30, pool_recycle := 3600, echo := false }

/-- A two-connection settings object: a default connection plus a superuser. -/
def cfg0 : DatabaseSettings :=
  { connections := [("default", connDefault), ("admin", connAdmin)]
    default_connection := "default", echo := false }

/-- A settings object with no superuser connection. -/
def cfgNoSuper : DatabaseSettings :=
  { connections := [("default", connDefault)]
    default_connection := "default", echo := false }

/-- A world where every round trip succeeds and no disposal fails. -/
def worldOk : World :=
  { connectOk := fun _ => true, disposeFails := fun _ => false }

/-- A small server catalog: the maintenance database, the two template
databases and one user database. -/
def srv0 : ServerState :=
  { dbs := [("postgres", false), ("template0", true), ("template1", true), ("mydb", false)] }

/-! ## Claims -/

theorem dictGet_cons_self {β : Type} (k : String) (v : β) (l : List (String × β)) :
    dictGet ((k, v) :: l) k = some v := by
  simp [dictGet]

/-- C1. For every connection name present in the configuration, `get_engine`
called twice returns the identical cached engine (same `Engine`, hence same
identity), the second call leaves the state — in particular the construction
counter — untouched, and the engine is built on first access only (exactly
one construction from a state that has no cached engine for the name) and is
stored in the engine cache. -/
theorem getEngine_cached_second_call (cfg : DatabaseSettings) (cn : Option String)
    (st : ManagerState)
    (hconf : (dictGet cfg.connections (pyOr cn cfg.default_connection)).isSome = true) :
    ∃ e : Engine,
      (DatabaseManager.get_engine cfg cn st).1 = .ok e ∧
      DatabaseManager.get_engine cfg cn (DatabaseManager.get_engine cfg cn st).2 =
        (.ok e, (DatabaseManager.get_engine cfg cn st).2) ∧
      dictGet (DatabaseManager.get_engine cfg cn st).2.engines
        (pyOr cn cfg.default_connection) = some e ∧
      (dictGet st.engines (pyOr cn cfg.default_connection) = none →
        (DatabaseManager.get_engine cfg cn st).2.nextEngineId = st.nextEngineId + 1) := by
  rcases hcfg : dictGet cfg.connections (pyOr cn cfg.default_connection) with _ | conn
  · rw [hcfg] at hconf; simp at hconf
  rcases hcache : dictGet st.engines (pyOr cn cfg.default_connection) with _ | e
  · simp only [DatabaseManager.get_engine, hcache, hcfg]
    refine ⟨_, rfl, ?_, ?_, ?_⟩
    · simp [DatabaseManager.get_engine, dictGet_cons_self]
    · simp [dictGet_cons_self]
    · intro _; trivial
  · simp only [DatabaseManager.get_engine, hcache]
    exact ⟨e, rfl, rfl, rfl, fun hnone => Option.noConfusion hnone⟩

/-- Witness for C1 at a concrete configuration and the fresh state. -/
theorem getEngine_cached_second_call_witness :
    (dictGet cfg0.connections (pyOr (some "default") cfg0.default_connection)).isSome = true ∧
    (∃ e : Engine,
      (DatabaseManager.get_engine cfg0 (some "default") ManagerState.init).1 = .ok e ∧
      DatabaseManager.get_engine cfg0 (some "default")
          (DatabaseManager.get_engine cfg0 (some "default") ManagerState.init).2 =
        (.ok e, (DatabaseManager.get_engine cfg0 (some "default") ManagerState.init).2) ∧
      dictGet (DatabaseManager.get_engine cfg0 (some "default") ManagerState.init).2.engines
        (pyOr (some "default") cfg0.default_connection) = some e ∧
      (dictGet ManagerState.init.engines (pyOr (some "default") cfg0.default_connection) = none →
        (DatabaseManager.get_engine cfg0 (some "default") ManagerState.init).2.nextEngineId =
          ManagerState.init.nextEngineId + 1)) :=
  ⟨by decide, getEngine_cached_second_call cfg0 (some "default") ManagerState.init (by decide)⟩

theorem dictGet_none_of_all {β γ : Type} (l : List (String × β)) (f : String → Option γ)
    (h : ∀ p ∈ l, (f p.1).isSome = true) (k : String) (hk : f k = none) :
    dictGet l k = none := by
  induction l with
  | nil => rfl
  | cons p t ih =>
    rcases hpk : (p.1 == k) with _ | _
    · simp only [dictGet, hpk, Bool.false_eq_true, if_false]
      exact ih (fun q hq => h q (List.mem_cons_of_mem p hq))
    · have hsome : (f p.1).isSome = true := h p (List.mem_cons_self p t)
      rw [eq_of_beq hpk, hk] at hsome
      cases hsome

/-- C4. For a connection name with no matching configuration, `get_engine`
fails with `unknownConnection` and returns the state unchanged: nothing is
constructed or cached for that name (engine construction is the only action
of `get_engine` that could touch the network, and it is never reached). The
cache-invariant hypothesis records that a manager never holds an engine for
an unconfigured name. -/
theorem getEngine_unknown_connection (cfg : DatabaseSettings) (cn : Option String)
    (st : ManagerState) (hinv : cacheInvariant cfg st)
    (hconf : dictGet cfg.connections (pyOr cn cfg.default_connection) = none) :
    DatabaseManager.get_engine cfg cn st =
      (.error (.unknownConnection (pyOr cn cfg.default_connection)), st) := by
  have hcache : dictGet st.engines (pyOr cn cfg.default_connection) = none :=
    dictGet_none_of_all st.engines (dictGet cfg.connections) hinv.2 _ hconf
  simp [DatabaseManager.get_engine, hcache, hconf]

/-- Witness for C4: the name `doesnotexist` on a fresh manager over `cfg0`. -/
theorem getEngine_unknown_connection_witness :
    cacheInvariant cfg0 ManagerState.init ∧
    dictGet cfg0.connections (pyOr (some "doesnotexist") cfg0.default_connection) = none ∧
    DatabaseManager.get_engine cfg0 (some "doesnotexist") ManagerState.init =
      (.error (.unknownConnection (pyOr (some "doesnotexist") cfg0.default_connection)),
        ManagerState.init) :=
  ⟨by decide, by decide,
    getEngine_unknown_connection cfg0 (some "doesnotexist") ManagerState.init
      (by decide) (by decide)⟩

theorem pyOr_pyOr (cn : Option String) (d : String) :
    pyOr (some (pyOr cn d)) d = pyOr cn d := by
  rcases cn with _ | s
  · simp [pyOr]
  · by_cases hs : s = "" <;> simp [pyOr, hs]

theorem get_engine_ok (cfg : DatabaseSettings) (cn : Option String) (st : ManagerState)
    (h : (dictGet cfg.connections (pyOr cn cfg.default_connection)).isSome = true) :
    ∃ (e : Engine) (st2 : ManagerState),
      DatabaseManager.get_engine cfg cn st = (.ok e, st2) := by
  rcases hcfg : dictGet cfg.connections (pyOr cn cfg.default_connection) with _ | conn
  · rw [hcfg] at h; cases h
  rcases hcache : dictGet st.engines (pyOr cn cfg.default_connection) with _ | e
  · simp only [DatabaseManager.get_engine, hcache, hcfg]
    exact ⟨_, _, rfl⟩
  · simp only [DatabaseManager.get_engine, hcache]
    exact ⟨e, st, rfl⟩

theorem get_engine_stable (cfg : DatabaseSettings) (cn : Option String) (st st' : ManagerState)
    (e : Engine) (h : DatabaseManager.get_engine cfg cn st = (.ok e, st')) :
    DatabaseManager.get_engine cfg cn st' = (.ok e, st') := by
  rcases hcache : dictGet st.engines (pyOr cn cfg.default_connection) with _ | e'
  · rcases hcfg : dictGet cfg.connections (pyOr cn cfg.default_connection) with _ | conn
    · simp [DatabaseManager.get_engine, hcache, hcfg] at h
    · simp only [DatabaseManager.get_engine, hcache, hcfg] at h
      obtain ⟨he, hst⟩ := Prod.mk.injEq .. ▸ h
      cases he
      subst hst
      simp [DatabaseManager.get_engine, dictGet_cons_self]
  · simp only [DatabaseManager.get_engine, hcache] at h
    obtain ⟨he, hst⟩ := Prod.mk.injEq .. ▸ h
    cases he
    subst hst
    simp [DatabaseManager.get_engine, hcache]

/-- Modelled from the spec: the effective echo the spec describes — the
per-connection value whenever the field was explicitly set on the
configuration surface, the global value otherwise. -/
def spec_effective_echo (echoInput : Option Bool) (globalEcho : Bool) : Bool :=
  echoInput.getD globalEcho

/-- The echo flag of the engine a `get_engine` result carries, when any. -/
def engineEchoOf (r : Except DbError Engine) : Option Bool :=
  match r with
  | .ok e => some e.params.echo
  | .error _ => none

/-- The configuration-surface input for the counterexample: the connection's
`echo` field explicitly set to `False`. -/
def echoInputFalse : Option Bool := some false

/-- A connection whose `echo` field was explicitly provided as `False`. -/
def connEchoFalse : DatabaseConnectionSettings :=
  { host := "localhost", port := 5432, username := "app", password := "pw"
    database := "appdb", is_superuser := false, pool_size := 5, max_overflow := 10
    pool_timeout := 30, pool_recycle := 3600, echo := appliedEcho echoInputFalse }

/-- Global echo `True`, per-connection echo explicitly `False`. -/
def cfgEcho : DatabaseSettings :=
  { connections := [("default", connEchoFalse)]
    default_connection := "default", echo := true }

/-- Counterexample to C6: with the per-connection `echo` explicitly set to
`False` and the global echo `True`, line 63 of `connection.py`
(`echo = conn_settings.echo if conn_settings.echo else self.config.echo`)
tests truthiness, not whether the field was set: the constructed engine gets
echo `True`, while the claim says the explicitly-set per-connection value
`False` must win. -/
theorem getEngine_echo_override_counterexample :
    appliedEcho echoInputFalse = connEchoFalse.echo ∧
    engineEchoOf (DatabaseManager.get_engine cfgEcho (some "default") ManagerState.init).1 =
      some true ∧
    spec_effective_echo echoInputFalse cfgEcho.echo = false := by
  decide

/-- C6 (amended). When `get_engine` constructs an engine, the pool parameters
are applied verbatim from the connection settings, `pool_pre_ping` is set,
and the effective echo is the disjunction of the per-connection and global
flags: the per-connection flag overrides the global one only when it is
`True`; a per-connection `False` (explicit or defaulted) falls back to the
global flag. -/
theorem getEngine_params_verbatim (cfg : DatabaseSettings) (cn : Option String)
    (st : ManagerState) (conn : DatabaseConnectionSettings)
    (hcfg : dictGet cfg.connections (pyOr cn cfg.default_connection) = some conn)
    (hfresh : dictGet st.engines (pyOr cn cfg.default_connection) = none) :
    ∃ e : Engine,
      (DatabaseManager.get_engine cfg cn st).1 = .ok e ∧
      e.params.pool_size = conn.pool_size ∧
      e.params.max_overflow = conn.max_overflow ∧
      e.params.pool_timeout = conn.pool_timeout ∧
      e.params.pool_recycle = conn.pool_recycle ∧
      e.params.pool_pre_ping = true ∧
      e.params.echo = (conn.echo || cfg.echo) := by
  simp only [DatabaseManager.get_engine, hfresh, hcfg]
  refine ⟨_, rfl, rfl, rfl, rfl, rfl, rfl, ?_⟩
  cases hce : conn.echo <;> simp [hce]

/-- Witness for the amended C6 at `cfgEcho` and the fresh state. -/
theorem getEngine_params_verbatim_witness :
    dictGet cfgEcho.connections (pyOr (some "default") cfgEcho.default_connection) =
      some connEchoFalse ∧
    dictGet ManagerState.init.engines (pyOr (some "default") cfgEcho.default_connection) = none ∧
    (∃ e : Engine,
      (DatabaseManager.get_engine cfgEcho (some "default") ManagerState.init).1 = .ok e ∧
      e.params.pool_size = connEchoFalse.pool_size ∧
      e.params.max_overflow = connEchoFalse.max_overflow ∧
      e.params.pool_timeout = connEchoFalse.pool_timeout ∧
      e.params.pool_recycle = connEchoFalse.pool_recycle ∧
      e.params.pool_pre_ping = true ∧
      e.params.echo = (connEchoFalse.echo || cfgEcho.echo)) :=
  ⟨by decide, by decide,
    getEngine_params_verbatim cfgEcho (some "default") ManagerState.init connEchoFalse
      (by decide) (by decide)⟩

theorem disposeLoop_ok (w : World) (l : List (String × Engine))
    (h : ∀ p ∈ l, w.disposeFails p.2.id = false) :
    DatabaseManager.disposeLoop w l = .ok () := by
  induction l with
  | nil => rfl
  | cons hd tl ih =>
    have hhd := h hd (List.mem_cons_self hd tl)
    simp only [DatabaseManager.disposeLoop, hhd]
    exact ih (fun p hp => h p (List.mem_cons_of_mem hd hp))

theorem disposeLoop_error (w : World) (l : List (String × Engine))
    (h : ∃ p ∈ l, w.disposeFails p.2.id = true) :
    DatabaseManager.disposeLoop w l = .error .disposalFailure := by
  induction l with
  | nil => obtain ⟨p, hp, _⟩ := h; cases hp
  | cons hd tl ih =>
    rcases hfail : w.disposeFails hd.2.id with _ | _
    · obtain ⟨p, hp, hpf⟩ := h
      rcases List.mem_cons.mp hp with rfl | hmem
      · rw [hfail] at hpf; cases hpf
      · simp only [DatabaseManager.disposeLoop, hfail]
        exact ih ⟨p, hmem, hpf⟩
    · simp [DatabaseManager.disposeLoop, hfail]

/-- A single cached engine. -/
def engineX : Engine :=
  { id := 0
    params :=
      { url := "postgresql+asyncpg://app:pw@localhost:5432/appdb", echo := false
        pool_size := 5, max_overflow := 10, pool_timeout := 30, pool_recycle := 3600
        pool_pre_ping := true } }

/-- A manager state holding one cached engine and its session maker. -/
def stOneEngine : ManagerState :=
  { engines := [("default", engineX)], session_makers := [("default", 0)], nextEngineId := 1 }

/-- A world in which every `dispose` raises. -/
def worldDisposeFails : World :=
  { connectOk := fun _ => true, disposeFails := fun _ => true }

/-- Counterexample to C7: with one cached engine whose `dispose` raises,
`close_all` propagates the failure (the loop has no try/except) and returns
before the `clear` calls, so the engine cache is NOT empty afterwards —
against the claim that after `closeAll` the cache is empty even if some
disposal raised. -/
theorem close_all_failure_counterexample :
    DatabaseManager.close_all worldDisposeFails stOneEngine =
      (.error .disposalFailure, stOneEngine) ∧
    stOneEngine.engines ≠ [] ∧ stOneEngine.session_makers ≠ [] := by
  decide

/-- C7 (amended). `close_all` disposes the cached engines in dict order and,
when every disposal succeeds, clears both caches; it is safe (a no-op
returning success) when no engines exist, and calling it again after a
successful call is again a successful no-op. But it does not tolerate
disposal failures: if any cached engine's `dispose` raises, the exception
propagates, the remaining disposals and the `clear` calls never run, and
both caches are left exactly as they were. -/
theorem close_all_behaviour (w : World) (st : ManagerState) :
    (st.engines = [] →
      DatabaseManager.close_all w st =
        (.ok (), { engines := [], session_makers := [], nextEngineId := st.nextEngineId })) ∧
    ((∀ p ∈ st.engines, w.disposeFails p.2.id = false) →
      DatabaseManager.close_all w st =
        (.ok (), { engines := [], session_makers := [], nextEngineId := st.nextEngineId }) ∧
      DatabaseManager.close_all w (DatabaseManager.close_all w st).2 =
        (.ok (), (DatabaseManager.close_all w st).2)) ∧
    ((∃ p ∈ st.engines, w.disposeFails p.2.id = true) →
      DatabaseManager.close_all w st = (.error .disposalFailure, st)) := by
  refine ⟨?_, ?_, ?_⟩
  · intro hempty
    simp [DatabaseManager.close_all, hempty, DatabaseManager.disposeLoop]
  · intro hall
    have hloop := disposeLoop_ok w st.engines hall
    constructor
    · simp [DatabaseManager.close_all, hloop]
    · simp [DatabaseManager.close_all, hloop, DatabaseManager.disposeLoop]
  · intro hex
    have hloop := disposeLoop_error w st.engines hex
    simp [DatabaseManager.close_all, hloop]

/-- Witness for the amended C7: a clean close over `worldOk` from
`stOneEngine`, and a failing close over `worldDisposeFails`. -/
theorem close_all_behaviour_witness :
    ((∀ p ∈ stOneEngine.engines, worldOk.disposeFails p.2.id = false) ∧
      DatabaseManager.close_all worldOk stOneEngine =
        (.ok (), { engines := [], session_makers := []
                   nextEngineId := stOneEngine.nextEngineId })) ∧
    ((∃ p ∈ stOneEngine.engines, worldDisposeFails.disposeFails p.2.id = true) ∧
      DatabaseManager.close_all worldDisposeFails stOneEngine =
        (.error .disposalFailure, stOneEngine)) :=
  ⟨⟨by decide, ((close_all_behaviour worldOk stOneEngine).2.1 (by decide)).1⟩,
   ⟨⟨("default", engineX), by decide, by decide⟩,
     (close_all_behaviour worldDisposeFails stOneEngine).2.2
       ⟨("default", engineX), by decide, by decide⟩⟩⟩

/-- C8. `health_check` returns a plain boolean and never propagates an
underlying error (its try/except converts every failure — including an
unresolvable connection name and a failed connect — into `False`): for every
configuration, world, name and state, the returned boolean is `true` exactly
when engine resolution succeeds and the trivial `SELECT 1` round trip on the
resolved connection succeeds, and the resulting manager state is exactly the
one engine resolution produced. -/
theorem health_check_total (cfg : DatabaseSettings) (w : World) (cn : Option String)
    (st : ManagerState) :
    ((DatabaseManager.health_check cfg w cn st).1 = true ↔
      ((∃ e : Engine, (DatabaseManager.get_engine cfg cn st).1 = .ok e) ∧
        w.connectOk (pyOr cn cfg.default_connection) = true)) ∧
    (DatabaseManager.health_check cfg w cn st).2 = (DatabaseManager.get_engine cfg cn st).2 := by
  rcases hge : DatabaseManager.get_engine cfg cn st with ⟨r, st'⟩
  rcases r with err | e
  · refine ⟨?_, ?_⟩
    · simp only [DatabaseManager.health_check, hge]
      constructor
      · intro h; cases h
      · rintro ⟨⟨e, he⟩, -⟩; cases he
    · simp [DatabaseManager.health_check, hge]
  · refine ⟨?_, ?_⟩
    · rcases hok : w.connectOk (pyOr cn cfg.default_connection) with _ | _ <;>
        simp [DatabaseManager.health_check, hge, hok]
    · rcases hok : w.connectOk (pyOr cn cfg.default_connection) with _ | _ <;>
        simp [DatabaseManager.health_check, hge, hok]

/-- Witness for C8: a concrete health check over `cfg0` and `worldOk`. -/
theorem health_check_total_witness :
    (((DatabaseManager.health_check cfg0 worldOk (some "default") ManagerState.init).1 = true ↔
      ((∃ e : Engine,
          (DatabaseManager.get_engine cfg0 (some "default") ManagerState.init).1 = .ok e) ∧
        worldOk.connectOk (pyOr (some "default") cfg0.default_connection) = true)) ∧
      (DatabaseManager.health_check cfg0 worldOk (some "default") ManagerState.init).2 =
        (DatabaseManager.get_engine cfg0 (some "default") ManagerState.init).2) :=
  health_check_total cfg0 worldOk (some "default") ManagerState.init

theorem superuserCheck_no_super (cfg : DatabaseSettings)
    (h : cfg.get_superuser_connection_name = none) :
    superuserCheck cfg none = .error .noSuperuserConnection := by
  simp [superuserCheck, h]

theorem superuserCheck_default_eq (cfg : DatabaseSettings) (n : String)
    (h : cfg.get_superuser_connection_name = some n) :
    superuserCheck cfg none = superuserCheck cfg (some n) := by
  simp [superuserCheck, h]

theorem superuserCheck_not_super (cfg : DatabaseSettings) (m : String)
    (c : DatabaseConnectionSettings) (hm : m ≠ "")
    (hc : dictGet cfg.connections m = some c) (hsu : c.is_superuser = false) :
    superuserCheck cfg (some m) = .error (.notSuperuser m) := by
  simp [superuserCheck, DatabaseManager.is_superuser_connection,
    DatabaseSettings.get_connection, pyOr, Except.map, hm, hc, hsu]

/-- C2. All four administrative operations share the superuser-resolution
policy: (a) with no connection name and no superuser-flagged connection in
the configuration, each fails with `noSuperuserConnection`; (b) with no
connection name, each behaves exactly as if the first superuser-flagged
connection (configuration iteration order) had been named; (c) a supplied
name whose configuration has `is_superuser = false` makes each fail with
`notSuperuser`. For `drop_database`, parts (a) and (c) require the database
name to pass the denylist check that precedes resolution. -/
theorem admin_superuser_policy (cfg : DatabaseSettings) (w : World) (srv : ServerState)
    (db : String) (owner : Option String) (force : Bool) (st : ManagerState) :
    (cfg.get_superuser_connection_name = none →
      database_exists cfg w srv db none st = (.error .noSuperuserConnection, st) ∧
      create_database cfg w srv db owner none st = (.error .noSuperuserConnection, st, srv) ∧
      (db ∉ protected_databases →
        drop_database cfg w srv db none force st = (.error .noSuperuserConnection, st, srv)) ∧
      list_databases cfg w srv none st = (.error .noSuperuserConnection, st)) ∧
    (∀ n : String, cfg.get_superuser_connection_name = some n →
      database_exists cfg w srv db none st = database_exists cfg w srv db (some n) st ∧
      create_database cfg w srv db owner none st =
        create_database cfg w srv db owner (some n) st ∧
      drop_database cfg w srv db none force st = drop_database cfg w srv db (some n) force st ∧
      list_databases cfg w srv none st = list_databases cfg w srv (some n) st) ∧
    (∀ (m : String) (c : DatabaseConnectionSettings),
      m ≠ "" → dictGet cfg.connections m = some c → c.is_superuser = false →
      database_exists cfg w srv db (some m) st = (.error (.notSuperuser m), st) ∧
      create_database cfg w srv db owner (some m) st = (.error (.notSuperuser m), st, srv) ∧
      (db ∉ protected_databases →
        drop_database cfg w srv db (some m) force st = (.error (.notSuperuser m), st, srv)) ∧
      list_databases cfg w srv (some m) st = (.error (.notSuperuser m), st)) := by
  refine ⟨?_, ?_, ?_⟩
  · intro h
    have hsc := superuserCheck_no_super cfg h
    refine ⟨?_, ?_, ?_, ?_⟩
    · simp [database_exists, hsc]
    · simp [create_database, hsc]
    · intro hnp; simp [drop_database, hnp, hsc]
    · simp [list_databases, hsc]
  · intro n h
    have hsc := superuserCheck_default_eq cfg n h
    refine ⟨?_, ?_, ?_, ?_⟩
    · simp only [database_exists, hsc]
    · simp only [create_database, hsc]
    · simp only [drop_database, hsc]
    · simp only [list_databases, hsc]
  · intro m c hm hc hsu
    have hsc := superuserCheck_not_super cfg m c hm hc hsu
    refine ⟨?_, ?_, ?_, ?_⟩
    · simp [database_exists, hsc]
    · simp [create_database, hsc]
    · intro hnp; simp [drop_database, hnp, hsc]
    · simp [list_databases, hsc]

/-- Witness for C2: part (a) at a configuration with no superuser, parts (b)
and (c) at `cfg0` (first superuser `admin`; `default` not a superuser). -/
theorem admin_superuser_policy_witness :
    (cfgNoSuper.get_superuser_connection_name = none ∧
      database_exists cfgNoSuper worldOk srv0 "mydb" none ManagerState.init =
        (.error .noSuperuserConnection, ManagerState.init)) ∧
    (cfg0.get_superuser_connection_name = some "admin" ∧
      database_exists cfg0 worldOk srv0 "mydb" none ManagerState.init =
        database_exists cfg0 worldOk srv0 "mydb" (some "admin") ManagerState.init) ∧
    (dictGet cfg0.connections "default" = some connDefault ∧
      connDefault.is_superuser = false ∧
      database_exists cfg0 worldOk srv0 "mydb" (some "default") ManagerState.init =
        (.error (.notSuperuser "default"), ManagerState.init)) :=
  ⟨⟨by decide,
    ((admin_superuser_policy cfgNoSuper worldOk srv0 "mydb" none false
        ManagerState.init).1 (by decide)).1⟩,
   ⟨by decide,
    ((admin_superuser_policy cfg0 worldOk srv0 "mydb" none false
        ManagerState.init).2.1 "admin" (by decide)).1⟩,
   ⟨by decide, by decide,
    ((admin_superuser_policy cfg0 worldOk srv0 "mydb" none false
        ManagerState.init).2.2 "default" connDefault (by decide) (by decide) (by decide)).1⟩⟩

theorem superuserCheck_ok_elim (cfg : DatabaseSettings) (cn : Option String) (n : String)
    (h : superuserCheck cfg cn = .ok n) :
    DatabaseManager.is_superuser_connection cfg (some n) = .ok true := by
  rcases cn with _ | m
  · rcases hsu : cfg.get_superuser_connection_name with _ | n0
    · simp [superuserCheck, hsu] at h
    · simp only [superuserCheck, hsu] at h
      rcases hc : DatabaseManager.is_superuser_connection cfg (some n0) with e | b
      · rw [hc] at h; cases h
      · rcases b with _ | _
        · rw [hc] at h; cases h
        · rw [hc] at h
          simp only [Except.ok.injEq] at h
          subst h
          exact hc
  · simp only [superuserCheck] at h
    rcases hc : DatabaseManager.is_superuser_connection cfg (some m) with e | b
    · rw [hc] at h; cases h
    · rcases b with _ | _
      · rw [hc] at h; cases h
      · rw [hc] at h
        simp only [Except.ok.injEq] at h
        subst h
        exact hc

theorem superuserCheck_idem (cfg : DatabaseSettings) (cn : Option String) (n : String)
    (h : superuserCheck cfg cn = .ok n) : superuserCheck cfg (some n) = .ok n := by
  have hc := superuserCheck_ok_elim cfg cn n h
  simp [superuserCheck, hc]

theorem superuserCheck_ok_configured (cfg : DatabaseSettings) (cn : Option String) (n : String)
    (h : superuserCheck cfg cn = .ok n) :
    (dictGet cfg.connections (pyOr (some n) cfg.default_connection)).isSome = true := by
  have hc := superuserCheck_ok_elim cfg cn n h
  unfold DatabaseManager.is_superuser_connection DatabaseSettings.get_connection at hc
  rcases hd : dictGet cfg.connections (pyOr (some n) cfg.default_connection) with _ | c
  · simp [hd, Except.map] at hc
  · rfl

theorem database_exists_eval (cfg : DatabaseSettings) (w : World) (srv : ServerState)
    (db : String) (cn : Option String) (n : String) (st : ManagerState)
    (hsc : superuserCheck cfg cn = .ok n) (hok : w.connectOk n = true) :
    database_exists cfg w srv db cn st =
      (.ok (srv.hasDb db), (DatabaseManager.get_engine cfg (some n) st).2) := by
  obtain ⟨e, st2, hge⟩ :=
    get_engine_ok cfg (some n) st (superuserCheck_ok_configured cfg cn n hsc)
  rw [hge]
  simp [database_exists, hsc, hge, hok]

theorem find_append_self (l : List (String × Bool)) (db : String) :
    (List.find? (fun p => p.1 == db) (l ++ [(db, false)])).isSome = true := by
  induction l with
  | nil => simp [List.find?]
  | cons hd tl ih =>
    rcases hb : (hd.1 == db) with _ | _ <;> simp [List.find?, hb, ih]

theorem hasDb_append (srv : ServerState) (db : String) :
    ServerState.hasDb { dbs := srv.dbs ++ [(db, false)] } db = true :=
  find_append_self srv.dbs db

/-- C3. `drop_database` refuses the fixed denylist `{postgres, template0,
template1}` with `protectedDatabase` before any connection resolution or
network activity — for every configuration, world, server, connection
argument, force flag and manager state, with both the manager state and the
server catalog unchanged. And for a non-denylisted name that does not exist
on the server, it returns `False` without raising (superuser resolution
succeeding and the round trip reaching the server), leaving the catalog
unchanged. -/
theorem drop_database_protected_and_missing (cfg : DatabaseSettings) (w : World)
    (srv : ServerState) (db : String) (cn : Option String) (force : Bool)
    (st : ManagerState) (n : String) :
    (db ∈ protected_databases →
      drop_database cfg w srv db cn force st =
        (.error (.protectedDatabase db), st, srv)) ∧
    (db ∉ protected_databases → superuserCheck cfg cn = .ok n →
      w.connectOk n = true → srv.hasDb db = false →
      drop_database cfg w srv db cn force st =
        (.ok false, (DatabaseManager.get_engine cfg (some n) st).2, srv)) := by
  constructor
  · intro hp
    simp [drop_database, hp]
  · intro hnp hsc hok hdb
    have hde :=
      database_exists_eval cfg w srv db (some n) n st (superuserCheck_idem cfg cn n hsc) hok
    rw [hdb] at hde
    simp [drop_database, hnp, hsc, hde]

/-- Witness for C3: dropping `postgres` is refused outright, and dropping the
non-existent `nosuchdb` returns `False`, over `cfg0` with superuser `admin`. -/
theorem drop_database_protected_and_missing_witness :
    ("postgres" ∈ protected_databases ∧
      drop_database cfg0 worldOk srv0 "postgres" (some "admin") false ManagerState.init =
        (.error (.protectedDatabase "postgres"), ManagerState.init, srv0)) ∧
    ("nosuchdb" ∉ protected_databases ∧
      superuserCheck cfg0 (some "admin") = .ok "admin" ∧
      worldOk.connectOk "admin" = true ∧
      srv0.hasDb "nosuchdb" = false ∧
      drop_database cfg0 worldOk srv0 "nosuchdb" (some "admin") false ManagerState.init =
        (.ok false,
          (DatabaseManager.get_engine cfg0 (some "admin") ManagerState.init).2, srv0)) :=
  ⟨⟨by decide,
    (drop_database_protected_and_missing cfg0 worldOk srv0 "postgres" (some "admin") false
        ManagerState.init "admin").1 (by decide)⟩,
   ⟨by decide, by decide, by decide, by decide,
    (drop_database_protected_and_missing cfg0 worldOk srv0 "nosuchdb" (some "admin") false
        ManagerState.init "admin").2 (by decide) (by decide) (by decide) (by decide)⟩⟩

/-- C5. With a resolved superuser connection `n` and a working round trip:
(i) `create_database` on an existing database returns `False` without raising
and changes nothing server-side; (ii) on a missing database it returns `True`
and the catalog gains the database; (iii) `database_exists` immediately after
a successful create returns `True`; (iv) a second consecutive
`create_database` returns `False` without raising. -/
theorem create_database_idempotent (cfg : DatabaseSettings) (w : World) (srv : ServerState)
    (db : String) (owner : Option String) (cn : Option String) (st : ManagerState)
    (n : String) (hsc : superuserCheck cfg cn = .ok n) (hok : w.connectOk n = true) :
    (srv.hasDb db = true →
      create_database cfg w srv db owner cn st =
        (.ok false, (DatabaseManager.get_engine cfg (some n) st).2, srv)) ∧
    (srv.hasDb db = false →
      create_database cfg w srv db owner cn st =
        (.ok true, (DatabaseManager.get_engine cfg (some n) st).2,
          { dbs := srv.dbs ++ [(db, false)] })) ∧
    (database_exists cfg w { dbs := srv.dbs ++ [(db, false)] } db cn
        (DatabaseManager.get_engine cfg (some n) st).2 =
      (.ok true, (DatabaseManager.get_engine cfg (some n) st).2)) ∧
    (create_database cfg w { dbs := srv.dbs ++ [(db, false)] } db owner cn
        (DatabaseManager.get_engine cfg (some n) st).2 =
      (.ok false, (DatabaseManager.get_engine cfg (some n) st).2,
        { dbs := srv.dbs ++ [(db, false)] })) := by
  obtain ⟨e, st2, hge⟩ :=
    get_engine_ok cfg (some n) st (superuserCheck_ok_configured cfg cn n hsc)
  have hst2 : (DatabaseManager.get_engine cfg (some n) st).2 = st2 := by rw [hge]
  have hstable := get_engine_stable cfg (some n) st st2 e hge
  have hsc' := superuserCheck_idem cfg cn n hsc
  have hde := database_exists_eval cfg w srv db (some n) n st hsc' hok
  rw [hst2] at hde
  have hde2 :=
    database_exists_eval cfg w { dbs := srv.dbs ++ [(db, false)] } db (some n) n st2 hsc' hok
  rw [hstable] at hde2
  simp only [hasDb_append] at hde2
  rw [hst2]
  refine ⟨?_, ?_, ?_, ?_⟩
  · intro hdb
    rw [hdb] at hde
    simp [create_database, hsc, hde]
  · intro hdb
    rw [hdb] at hde
    simp [create_database, hsc, hde, hstable, hok]
  · have hde2' :=
      database_exists_eval cfg w { dbs := srv.dbs ++ [(db, false)] } db cn n st2 hsc hok
    rw [hstable] at hde2'
    simp only [hasDb_append] at hde2'
    exact hde2'
  · simp [create_database, hsc, hde2]

/-- Witness for C5: creating `mydb` (present in `srv0`) is a no-op returning
`False`; creating `newdb` (absent) returns `True`, after which it exists and
a second create returns `False`. -/
theorem create_database_idempotent_witness :
    (superuserCheck cfg0 (some "admin") = .ok "admin" ∧
      worldOk.connectOk "admin" = true) ∧
    (srv0.hasDb "mydb" = true ∧
      create_database cfg0 worldOk srv0 "mydb" none (some "admin") ManagerState.init =
        (.ok false,
          (DatabaseManager.get_engine cfg0 (some "admin") ManagerState.init).2, srv0)) ∧
    (srv0.hasDb "newdb" = false ∧
      create_database cfg0 worldOk srv0 "newdb" none (some "admin") ManagerState.init =
        (.ok true, (DatabaseManager.get_engine cfg0 (some "admin") ManagerState.init).2,
          { dbs := srv0.dbs ++ [("newdb", false)] }) ∧
      database_exists cfg0 worldOk { dbs := srv0.dbs ++ [("newdb", false)] } "newdb"
          (some "admin") (DatabaseManager.get_engine cfg0 (some "admin") ManagerState.init).2 =
        (.ok true, (DatabaseManager.get_engine cfg0 (some "admin") ManagerState.init).2) ∧
      create_database cfg0 worldOk { dbs := srv0.dbs ++ [("newdb", false)] } "newdb" none
          (some "admin") (DatabaseManager.get_engine cfg0 (some "admin") ManagerState.init).2 =
        (.ok false, (DatabaseManager.get_engine cfg0 (some "admin") ManagerState.init).2,
          { dbs := srv0.dbs ++ [("newdb", false)] })) :=
  ⟨⟨by decide, by decide⟩,
   ⟨by decide,
    (create_database_idempotent cfg0 worldOk srv0 "mydb" none (some "admin")
        ManagerState.init "admin" (by decide) (by decide)).1 (by decide)⟩,
   ⟨by decide,
    (create_database_idempotent cfg0 worldOk srv0 "newdb" none (some "admin")
        ManagerState.init "admin" (by decide) (by decide)).2.1 (by decide),
    (create_database_idempotent cfg0 worldOk srv0 "newdb" none (some "admin")
        ManagerState.init "admin" (by decide) (by decide)).2.2.1,
    (create_database_idempotent cfg0 worldOk srv0 "newdb" none (some "admin")
        ManagerState.init "admin" (by decide) (by decide)).2.2.2⟩⟩

theorem dictGet_isSome_congr {β γ : Type} (l : List (String × β)) (l' : List (String × γ))
    (h : l.map Prod.fst = l'.map Prod.fst) (k : String) :
    (dictGet l k).isSome = (dictGet l' k).isSome := by
  induction l generalizing l' with
  | nil =>
    cases l' with
    | nil => rfl
    | cons q t' => cases h
  | cons p t ih =>
    cases l' with
    | nil => cases h
    | cons q t' =>
      simp only [List.map_cons, List.cons.injEq] at h
      rcases hpk : (p.1 == k) with _ | _
      · have hqk : (q.1 == k) = false := by rw [← h.1]; exact hpk
        simp only [dictGet, hpk, hqk, Bool.false_eq_true, if_false]
        exact ih t' h.2
      · have hqk : (q.1 == k) = true := by rw [← h.1]; exact hpk
        simp [dictGet, hpk, hqk]

theorem cacheInvariant_get_engine (cfg : DatabaseSettings) (cn : Option String)
    (st : ManagerState) (h : cacheInvariant cfg st) :
    cacheInvariant cfg (DatabaseManager.get_engine cfg cn st).2 := by
  rcases hcache : dictGet st.engines (pyOr cn cfg.default_connection) with _ | e
  · rcases hcfg : dictGet cfg.connections (pyOr cn cfg.default_connection) with _ | conn
    · simpa [DatabaseManager.get_engine, hcache, hcfg] using h
    · simp only [DatabaseManager.get_engine, hcache, hcfg]
      unfold cacheInvariant at h ⊢
      refine ⟨?_, ?_⟩
      · simpa using h.1
      · intro p hp
        rcases List.mem_cons.mp hp with rfl | hmem
        · simpa using congrArg Option.isSome hcfg
        · exact h.2 p hmem
  · simpa [DatabaseManager.get_engine, hcache] using h

theorem cacheInvariant_get_session_maker (cfg : DatabaseSettings) (cn : Option String)
    (st : ManagerState) (h : cacheInvariant cfg st) :
    cacheInvariant cfg (DatabaseManager.get_session_maker cfg cn st).2 := by
  have hge := cacheInvariant_get_engine cfg (some (pyOr cn cfg.default_connection)) st h
  rcases hsm : dictGet st.session_makers (pyOr cn cfg.default_connection) with _ | sm
  · simp only [DatabaseManager.get_session_maker, hsm]
    rcases hgeq : DatabaseManager.get_engine cfg (some (pyOr cn cfg.default_connection)) st
      with ⟨r, st'⟩
    rw [hgeq] at hge
    rcases r with err | e
    · simpa using hge
    · rcases hd : dictGet st'.session_makers (pyOr cn cfg.default_connection) with _ | sm' <;>
        simpa [hd] using hge
  · simp only [DatabaseManager.get_session_maker, hsm]
    exact h

theorem cacheInvariant_get_session (cfg : DatabaseSettings) (cn : Option String)
    (st : ManagerState) (h : cacheInvariant cfg st) :
    cacheInvariant cfg (DatabaseManager.get_session cfg cn st).2 :=
  cacheInvariant_get_session_maker cfg cn st h

theorem cacheInvariant_close_all (cfg : DatabaseSettings) (w : World)
    (st : ManagerState) (h : cacheInvariant cfg st) :
    cacheInvariant cfg (DatabaseManager.close_all w st).2 := by
  rcases hdl : DatabaseManager.disposeLoop w st.engines with e | u
  · simpa [DatabaseManager.close_all, hdl] using h
  · cases u
    simp only [DatabaseManager.close_all, hdl]
    exact ⟨rfl, fun p hp => absurd hp (List.not_mem_nil p)⟩

theorem cacheInvariant_health_check (cfg : DatabaseSettings) (w : World)
    (cn : Option String) (st : ManagerState) (h : cacheInvariant cfg st) :
    cacheInvariant cfg (DatabaseManager.health_check cfg w cn st).2 := by
  have hge := cacheInvariant_get_engine cfg cn st h
  rcases hgeq : DatabaseManager.get_engine cfg cn st with ⟨r, st'⟩
  rw [hgeq] at hge
  rcases r with err | e
  · simpa [DatabaseManager.health_check, hgeq] using hge
  · rcases hok : w.connectOk (pyOr cn cfg.default_connection) with _ | _ <;>
      simpa [DatabaseManager.health_check, hgeq, hok] using hge

theorem cacheInvariant_runOp (cfg : DatabaseSettings) (w : World) (st : ManagerState)
    (op : RegistryOp) (h : cacheInvariant cfg st) :
    cacheInvariant cfg (runOp cfg w st op) := by
  cases op with
  | getEngine cn => exact cacheInvariant_get_engine cfg cn st h
  | getSessionMaker cn => exact cacheInvariant_get_session_maker cfg cn st h
  | getSession cn => exact cacheInvariant_get_session cfg cn st h
  | closeAll => exact cacheInvariant_close_all cfg w st h
  | healthCheck cn => exact cacheInvariant_health_check cfg w cn st h

/-- C10. Registry cache invariant: (1) after any sequence of registry
operations (`get_engine`, `get_session_maker`, `get_session`, `close_all`,
`health_check`) from a state satisfying the invariant, the engine cache and
the session-maker cache still hold exactly the same keys and every key is a
configured connection name; (2) a successful `get_engine` leaves the resolved
name present in both caches (it populates both together); (3) a successful
`close_all` leaves both caches empty (it clears both together). -/
theorem registry_cache_invariants (cfg : DatabaseSettings) (w : World) :
    (∀ (ops : List RegistryOp) (st : ManagerState),
      cacheInvariant cfg st → cacheInvariant cfg (runOps cfg w ops st)) ∧
    (∀ (cn : Option String) (st st1 : ManagerState) (e : Engine),
      cacheInvariant cfg st → DatabaseManager.get_engine cfg cn st = (.ok e, st1) →
      (dictGet st1.engines (pyOr cn cfg.default_connection)).isSome = true ∧
      (dictGet st1.session_makers (pyOr cn cfg.default_connection)).isSome = true) ∧
    (∀ st : ManagerState, (DatabaseManager.close_all w st).1 = .ok () →
      (DatabaseManager.close_all w st).2.engines = [] ∧
      (DatabaseManager.close_all w st).2.session_makers = []) := by
  refine ⟨?_, ?_, ?_⟩
  · intro ops
    induction ops with
    | nil => intro st h; exact h
    | cons op rest ih =>
      intro st h
      exact ih (runOp cfg w st op) (cacheInvariant_runOp cfg w st op h)
  · intro cn st st1 e hinv hge
    rcases hcache : dictGet st.engines (pyOr cn cfg.default_connection) with _ | e'
    · rcases hcfg : dictGet cfg.connections (pyOr cn cfg.default_connection) with _ | conn
      · simp [DatabaseManager.get_engine, hcache, hcfg] at hge
      · simp only [DatabaseManager.get_engine, hcache, hcfg] at hge
        obtain ⟨-, hst⟩ := Prod.mk.injEq .. ▸ hge
        subst hst
        constructor <;> simp [dictGet_cons_self]
    · simp only [DatabaseManager.get_engine, hcache] at hge
      obtain ⟨-, hst⟩ := Prod.mk.injEq .. ▸ hge
      subst hst
      refine ⟨by rw [hcache]; rfl, ?_⟩
      rw [← dictGet_isSome_congr st.engines st.session_makers hinv.1
          (pyOr cn cfg.default_connection), hcache]
      rfl
  · intro st hok
    rcases hdl : DatabaseManager.disposeLoop w st.engines with e | u
    · simp [DatabaseManager.close_all, hdl] at hok
    · cases u
      simp [DatabaseManager.close_all, hdl]

/-- Witness for C10 at `cfg0`: the invariant holds after a concrete operation
sequence from the fresh state, a concrete successful `get_engine` populates
both caches, and a concrete successful `close_all` empties both. -/
theorem registry_cache_invariants_witness :
    (cacheInvariant cfg0 ManagerState.init ∧
      cacheInvariant cfg0
        (runOps cfg0 worldOk
          [RegistryOp.getEngine (some "default"), RegistryOp.getSession (some "admin"),
            RegistryOp.healthCheck none, RegistryOp.closeAll]
          ManagerState.init)) ∧
    ((DatabaseManager.get_engine cfg0 (some "default") ManagerState.init).1 =
        .ok ((DatabaseManager.get_engine cfg0 (some "default") ManagerState.init).1.toOption.getD
          engineX) ∧
      (dictGet (DatabaseManager.get_engine cfg0 (some "default") ManagerState.init).2.engines
        (pyOr (some "default") cfg0.default_connection)).isSome = true ∧
      (dictGet
          (DatabaseManager.get_engine cfg0 (some "default") ManagerState.init).2.session_makers
        (pyOr (some "default") cfg0.default_connection)).isSome = true) ∧
    ((DatabaseManager.close_all worldOk stOneEngine).1 = .ok () ∧
      (DatabaseManager.close_all worldOk stOneEngine).2.engines = [] ∧
      (DatabaseManager.close_all worldOk stOneEngine).2.session_makers = []) :=
  ⟨⟨by decide,
    (registry_cache_invariants cfg0 worldOk).1
      [RegistryOp.getEngine (some "default"), RegistryOp.getSession (some "admin"),
        RegistryOp.healthCheck none, RegistryOp.closeAll]
      ManagerState.init (by decide)⟩,
   ⟨by decide,
    (registry_cache_invariants cfg0 worldOk).2.1 (some "default") ManagerState.init
      (DatabaseManager.get_engine cfg0 (some "default") ManagerState.init).2
      ((DatabaseManager.get_engine cfg0 (some "default") ManagerState.init).1.toOption.getD
        engineX)
      (by decide) (by decide)⟩,
   ⟨by decide,
    (registry_cache_invariants cfg0 worldOk).2.2 stOneEngine (by decide)⟩⟩

/-- One first-access API call of the spec's concurrency scenario: a caller
invokes either `get_engine` or `get_session` (which goes through
`get_session_maker`). None of these functions suspends (awaits) between the
cache check and the cache write — `get_engine` and `get_session_maker` are
plain synchronous methods and `get_session` awaits nothing — so under the
cooperative event-loop scheduling model of the source, each call executes
atomically; a set of N concurrent calls is therefore some sequence of these
atomic calls. -/
inductive AccessCall where
  | engine
  | session
deriving DecidableEq

/-- Run one atomic first-access call, returning the id of the engine the
caller ends up bound to (for `session` callers, the engine wrapped by the
session maker that produced their session). -/
def runAccess (cfg : DatabaseSettings) (cn : Option String) (st : ManagerState) :
    AccessCall → Except DbError Nat × ManagerState
  | .engine =>
    match DatabaseManager.get_engine cfg cn st with
    | (.ok e, st') => (.ok e.id, st')
    | (.error err, st') => (.error err, st')
  | .session => DatabaseManager.get_session cfg cn st

/-- Run a sequence of atomic first-access calls, collecting every caller's
result. -/
def runAccessSeq (cfg : DatabaseSettings) (cn : Option String) :
    List AccessCall → ManagerState → List (Except DbError Nat) × ManagerState
  | [], st => ([], st)
  | c :: cs, st =>
    let r := runAccess cfg cn st c
    let rest := runAccessSeq cfg cn cs r.2
    (r.1 :: rest.1, rest.2)

/-- The registry already holds an engine with id `idv` (and its session
maker) for the resolved name. -/
def settled (cfg : DatabaseSettings) (cn : Option String) (idv : Nat)
    (st : ManagerState) : Prop :=
  (∃ e : Engine, dictGet st.engines (pyOr cn cfg.default_connection) = some e ∧ e.id = idv) ∧
  dictGet st.session_makers (pyOr cn cfg.default_connection) = some idv

theorem runAccess_settled (cfg : DatabaseSettings) (cn : Option String) (idv : Nat)
    (st : ManagerState) (h : settled cfg cn idv st) (c : AccessCall) :
    runAccess cfg cn st c = (.ok idv, st) := by
  obtain ⟨⟨e, he, hid⟩, hsm⟩ := h
  cases c with
  | engine =>
    simp only [runAccess, DatabaseManager.get_engine, he]
    rw [hid]
  | session =>
    simp only [runAccess, DatabaseManager.get_session, DatabaseManager.get_session_maker, hsm]

theorem runAccess_fresh (cfg : DatabaseSettings) (cn : Option String) (st : ManagerState)
    (hconf : (dictGet cfg.connections (pyOr cn cfg.default_connection)).isSome = true)
    (hfresh : dictGet st.engines (pyOr cn cfg.default_connection) = none)
    (hinv : cacheInvariant cfg st) (c : AccessCall) :
    ∃ st1 : ManagerState,
      runAccess cfg cn st c = (.ok st.nextEngineId, st1) ∧
      settled cfg cn st.nextEngineId st1 ∧
      st1.nextEngineId = st.nextEngineId + 1 := by
  rcases hcfg : dictGet cfg.connections (pyOr cn cfg.default_connection) with _ | conn
  · rw [hcfg] at hconf; cases hconf
  have hsmfresh : dictGet st.session_makers (pyOr cn cfg.default_connection) = none := by
    have hcongr :=
      dictGet_isSome_congr st.engines st.session_makers hinv.1 (pyOr cn cfg.default_connection)
    rw [hfresh] at hcongr
    rcases hsm : dictGet st.session_makers (pyOr cn cfg.default_connection) with _ | v
    · rfl
    · rw [hsm] at hcongr; cases hcongr
  cases c with
  | engine =>
    simp only [runAccess, DatabaseManager.get_engine, hfresh, hcfg]
    refine ⟨_, rfl, ?_, ?_⟩
    · exact ⟨⟨_, dictGet_cons_self .., rfl⟩, dictGet_cons_self ..⟩
    · rfl
  | session =>
    simp only [runAccess, DatabaseManager.get_session, DatabaseManager.get_session_maker,
      hsmfresh]
    simp only [DatabaseManager.get_engine, pyOr_pyOr, hfresh, hcfg]
    simp only [dictGet_cons_self]
    refine ⟨_, rfl, ?_, ?_⟩
    · exact ⟨⟨_, dictGet_cons_self .., rfl⟩, dictGet_cons_self ..⟩
    · rfl

theorem runAccessSeq_settled (cfg : DatabaseSettings) (cn : Option String) (idv : Nat)
    (calls : List AccessCall) :
    ∀ st : ManagerState, settled cfg cn idv st →
      runAccessSeq cfg cn calls st = (List.replicate calls.length (.ok idv), st) := by
  induction calls with
  | nil => intro st _; rfl
  | cons c cs ih =>
    intro st h
    simp only [runAccessSeq, runAccess_settled cfg cn idv st h c, ih st h]
    rfl

/-- C9. Under the source's cooperative scheduling model, first-access engine
creation is idempotent across concurrent callers: any interleaving of N ≥ 1
concurrent first-time `get_engine`/`get_session` calls for the same
configured connection name (a nonempty sequence of the atomic calls —
atomic because these methods contain no suspension point) constructs exactly
one engine (the construction counter rises by exactly one) and hands every
caller the identical engine identity. -/
theorem concurrent_first_access_single_engine (cfg : DatabaseSettings) (cn : Option String)
    (st : ManagerState) (calls : List AccessCall)
    (hconf : (dictGet cfg.connections (pyOr cn cfg.default_connection)).isSome = true)
    (hfresh : dictGet st.engines (pyOr cn cfg.default_connection) = none)
    (hinv : cacheInvariant cfg st) (hne : calls ≠ []) :
    (runAccessSeq cfg cn calls st).1 =
      List.replicate calls.length (.ok st.nextEngineId) ∧
    (runAccessSeq cfg cn calls st).2.nextEngineId = st.nextEngineId + 1 := by
  rcases calls with _ | ⟨c, cs⟩
  · exact absurd rfl hne
  obtain ⟨st1, hstep, hsettled, hnext⟩ := runAccess_fresh cfg cn st hconf hfresh hinv c
  have hrest := runAccessSeq_settled cfg cn st.nextEngineId cs st1 hsettled
  simp only [runAccessSeq, hstep, hrest]
  exact ⟨rfl, hnext⟩

/-- Witness for C9: three concurrent first-access callers (engine, session,
engine) on `cfg0` from the fresh state all receive engine id 0 and exactly
one engine is constructed. -/
theorem concurrent_first_access_single_engine_witness :
    ((dictGet cfg0.connections (pyOr (some "default") cfg0.default_connection)).isSome = true ∧
      dictGet ManagerState.init.engines (pyOr (some "default") cfg0.default_connection) =
        none ∧
      cacheInvariant cfg0 ManagerState.init ∧
      [AccessCall.engine, AccessCall.session, AccessCall.engine] ≠ []) ∧
    (runAccessSeq cfg0 (some "default")
        [AccessCall.engine, AccessCall.session, AccessCall.engine] ManagerState.init).1 =
      List.replicate 3 (.ok ManagerState.init.nextEngineId) ∧
    (runAccessSeq cfg0 (some "default")
        [AccessCall.engine, AccessCall.session, AccessCall.engine]
        ManagerState.init).2.nextEngineId = ManagerState.init.nextEngineId + 1 :=
  ⟨⟨by decide, by decide, by decide, by decide⟩,
    concurrent_first_access_single_engine cfg0 (some "default") ManagerState.init
      [AccessCall.engine, AccessCall.session, AccessCall.engine]
      (by decide) (by decide) (by decide) (by decide)⟩
